import Mathlib

/-!
Verification development for the corpus-preparation pipeline
(`src/nmt/preprocess.py`) and the streaming metric aggregator
(`src/nmt/utils/stats.py`) of the machine-translation repository.

Pure functions of the Python source are embedded as executable Lean
definitions; stateful Python behaviour (the mutable default-argument
buffers of `Stats`) is embedded by explicit heap passing; fallible code
returns `Except`.
-/

namespace NMT

/-- Sentinel token strings. Modelled from the spec: `nmt/constants.py` is not
included under `src/`; the spec names four sentinel tokens `PAD`, `SOS`,
`EOS`, `UNK` inserted in this fixed order. -/
def PAD_TOKEN : String := "<PAD>"

/-- Start-of-sequence sentinel token (see `PAD_TOKEN`). -/
def SOS_TOKEN : String := "<SOS>"

/-- End-of-sequence sentinel token (see `PAD_TOKEN`). -/
def EOS_TOKEN : String := "<EOS>"

/-- Unknown-word sentinel token (see `PAD_TOKEN`). -/
def UNK_TOKEN : String := "<UNK>"

/-- The special-token list passed to `WordLevelTrainer` in
`src/nmt/preprocess.py` lines 27-30: `[PAD, SOS, EOS, UNK]` in that order. -/
def specialTokens : List String := [PAD_TOKEN, SOS_TOKEN, EOS_TOKEN, UNK_TOKEN]

/-- Split a character list into the maximal groups separated by spaces. -/
def splitChar : List Char → List (List Char)
  | [] => [[]]
  | c :: cs =>
    match splitChar cs with
    | [] => [[c]]
    | g :: gs => if c = ' ' then [] :: g :: gs else (c :: g) :: gs

/-- Whitespace pre-tokenization: split a sentence into words. Modelled from
the spec: the `Whitespace` pre-tokenizer of the external `tokenizers`
library; the spec says vocabularies use "whitespace pre-splitting". -/
def words (s : String) : List String :=
  ((splitChar s.data).map String.mk).filter (fun w => w ≠ "")

/-- A translation record: an association list from language code to sentence
text, as in the `translation` dictionaries of the dataset rows. -/
abbrev Row := List (String × String)

/-- Look up the sentence of a given language in a row (the `item[lang]`
access performed by the dataset utilities). -/
def getLang (r : Row) (lang : String) : String :=
  match r.find? (fun p => p.1 = lang) with
  | some p => p.2
  | none => ""

/-- Sentence iterator over one language column of a dataset. Modelled from
the spec: `nmt/utils/dataset.py` (`create_iter_from_dataset`) is not under
`src/`; the spec describes a lazy pass over the sentences of one language. -/
def sentencesOf (rows : List Row) (lang : String) : List String :=
  rows.map (fun r => getLang r lang)

/-- All whitespace tokens occurring in a list of sentences, in order. -/
def allWords (sentences : List String) : List String :=
  (sentences.map words).flatten

/-- Insert a word into a list sorted by descending frequency (stable). -/
def insertByFreq (cnt : String → Nat) (w : String) : List String → List String
  | [] => [w]
  | x :: xs => if cnt x < cnt w then w :: x :: xs else x :: insertByFreq cnt w xs

/-- Stable insertion sort by descending frequency. -/
def sortByFreq (cnt : String → Nat) : List String → List String
  | [] => []
  | x :: xs => insertByFreq cnt x (sortByFreq cnt xs)

/-- Vocabulary: the list of tokens in id order; a token's id is its index. -/
abbrev Vocab := List String

/-- The induced (non-sentinel) tokens of a vocabulary: the distinct words
of the training sentences whose frequency reaches `minFreq`, ranked by
descending frequency; words equal to a special token keep their special
id and are not re-inserted. -/
def inducedTokens (sentences : List String) (minFreq : Nat) : List String :=
  let ws := allWords sentences
  let cnt := fun w => ws.count w
  (sortByFreq cnt ws.dedup).filter
    (fun w => decide (minFreq ≤ cnt w) && !(specialTokens.contains w))

/-- Word-level vocabulary training. Modelled from the spec: the external
`WordLevelTrainer` (configured in `src/nmt/preprocess.py` lines 25-32)
inserts the four special tokens first, then the induced tokens whose
training-corpus frequency is at least `minFreq`, ranked by frequency. -/
def trainVocab (sentences : List String) (minFreq : Nat) : Vocab :=
  specialTokens ++ inducedTokens sentences minFreq

/-- `Tokenizer.token_to_id`: the id of a token is its index in the
vocabulary, `none` when absent. -/
def tokenToId : Vocab → String → Option Nat
  | [], _ => none
  | x :: xs, t => if x = t then some 0 else (tokenToId xs t).map (fun i => i + 1)

/-- One step of a linear congruential generator, used to make the seeded
shuffle executable and deterministic. -/
def lcgNext (s : Nat) : Nat := (1103515245 * s + 12345) % 2147483648

/-- Fisher-Yates style seeded shuffle with explicit fuel (the fuel is the
list length). Modelled from the spec: `Dataset.shuffle(seed)` of the
external `datasets` library is a seeded permutation of the rows. -/
def shuffleAux {α : Type} : Nat → Nat → List α → List α
  | 0, _, _ => []
  | _ + 1, _, [] => []
  | n + 1, s, x :: rest =>
    let i := s % (x :: rest).length
    (x :: rest).get ⟨i, Nat.mod_lt _ (Nat.succ_pos _)⟩ ::
      shuffleAux n (lcgNext s) ((x :: rest).eraseIdx i)

/-- Seeded deterministic shuffle of a list. -/
def shuffle {α : Type} (seed : Nat) (xs : List α) : List α :=
  shuffleAux xs.length seed xs

/-- The configuration options of `preprocess` that the embedded pipeline
reads (see section 6 of the spec and `src/nmt/preprocess.py`). -/
structure Config where
  max_train_set_size : Option Nat
  val_size_rate : Option Rat
  seed : Nat
  src_lang : String
  target_lang : String
  seq_length : Nat
  checkpoints_dir : String
  tokenizer_basename : String
  data_loaders_basename : String
deriving Repr, DecidableEq

/-- A `DatasetDict` restricted to the three split names the pipeline uses:
`train` is always present (required by the spec's input contract), while
`validation` and `test` may be absent; accessing an absent split raises
`KeyError` in Python, embedded below as an error. -/
structure DatasetDict where
  train : List Row
  validation : Option (List Row)
  test : Option (List Row)
deriving Repr, DecidableEq

/-- Failure modes of the embedded pipeline. -/
inductive PErr where
  | keyError
  | assertionError
deriving Repr, DecidableEq

/-- Train-split truncation, `src/nmt/preprocess.py` lines 43-45: when
`max_train_set_size` is configured and strictly smaller than the raw train
split, replace the split by a seeded shuffle truncated to that size. -/
def truncStep (mts : Option Nat) (seed : Nat) (tr : List Row) : List Row :=
  match mts with
  | some m => if m < tr.length then (shuffle seed tr).take m else tr
  | none => tr

/-- Number of rows the seeded split assigns to its `test` part for a
fractional size `v`. Modelled from the spec: `train_test_split` of the
external `datasets` library takes the ceiling of `v * n`. -/
def nTestOf (v : Rat) (n : Nat) : Nat := (v * (n : Rat)).ceil.toNat

/-- Validation-split derivation, `src/nmt/preprocess.py` lines 47-53: when
`val_size_rate` is configured, split the (possibly truncated) train split
with a seeded permutation into a new `train` part and a part renamed to
`validation`, and carry the original `test` split through; the access
`old_datasets['test']` raises `KeyError` when the raw data has no test
split. The seeded split itself is modelled from the spec: it is the
external `train_test_split`, a seeded permutation cut at the test size. -/
def valSplitStep (seed : Nat) (v : Option Rat) (d : DatasetDict) :
    Except PErr DatasetDict :=
  match v with
  | none => .ok d
  | some vv =>
    match d.test with
    | none => .error .keyError
    | some t =>
      let sh := shuffle seed d.train
      let k := nTestOf vv d.train.length
      .ok ⟨sh.drop k, some (sh.take k), some t⟩

/-- Normalize one row: apply the language-specific cleanup to the sentence
of every configured language. Modelled from the spec:
`process_dataset_sentences` of `nmt/utils/dataset.py` is not under `src/`;
the spec says it applies language-specific text cleanup to each sentence,
embedded here as an arbitrary cleanup function `norm`. -/
def normRow (langs : List String) (norm : String → String → String) (r : Row) : Row :=
  r.map (fun p => if langs.contains p.1 then (p.1, norm p.1 p.2) else p)

/-- Normalize every split of a dataset dictionary (see `normRow`). -/
def normDD (langs : List String) (norm : String → String → String)
    (d : DatasetDict) : DatasetDict :=
  ⟨d.train.map (normRow langs norm),
   d.validation.map (fun rows => rows.map (normRow langs norm)),
   d.test.map (fun rows => rows.map (normRow langs norm))⟩

/-- Token count of a sentence under the trained word-level tokenizer: every
whitespace word becomes exactly one token (unknown words become `UNK`). -/
def tokCount (s : String) : Nat := (words s).length

/-- Keep a sentence pair iff both sides fit the content budget. Modelled
from the spec: `remove_invalid_sentences` of `nmt/utils/dataset.py` is not
under `src/`; the spec says a pair is dropped iff either side's token count
exceeds `max_content_len`. -/
def keepPair (srcLang tgtLang : String) (maxLen : Nat) (r : Row) : Bool :=
  decide (tokCount (getLang r srcLang) ≤ maxLen) &&
    decide (tokCount (getLang r tgtLang) ≤ maxLen)

/-- Length filter on one split (see `keepPair`). -/
def removeInvalidSentences (srcLang tgtLang : String) (maxLen : Nat)
    (rows : List Row) : List Row :=
  rows.filter (keepPair srcLang tgtLang maxLen)

/-- Length filter applied to every split of the dataset dictionary, as
`remove_invalid_sentences` is applied to the whole `DatasetDict` in
`src/nmt/preprocess.py` lines 67-75. -/
def filterAll (srcLang tgtLang : String) (maxLen : Nat) (d : DatasetDict) :
    DatasetDict :=
  ⟨removeInvalidSentences srcLang tgtLang maxLen d.train,
   d.validation.map (removeInvalidSentences srcLang tgtLang maxLen),
   d.test.map (removeInvalidSentences srcLang tgtLang maxLen)⟩

/-- Substitute each placeholder pair of braces by the replacement text, the
effect of Python `str.format` with one positional argument. -/
def fmtAux (lang : List Char) : List Char → List Char
  | [] => []
  | [c] => [c]
  | c :: c2 :: rest =>
    if c = '\x7b' ∧ c2 = '\x7d' then lang ++ fmtAux lang rest
    else c :: fmtAux lang (c2 :: rest)

/-- Python `basename.format(lang)`. -/
def formatBasename (basename lang : String) : String :=
  String.mk (fmtAux lang.data basename.data)

/-- Path of the persisted tokenizer of a language,
`checkpoints_dir / tokenizer_basename.format(lang)`
(`src/nmt/preprocess.py` lines 21-22). -/
def tokenizerPath (cfg : Config) (lang : String) : String :=
  cfg.checkpoints_dir ++ "/" ++ formatBasename cfg.tokenizer_basename lang

/-- Path of the persisted data-loaders bundle
(`src/nmt/preprocess.py` lines 124-125). -/
def dataLoadersPath (cfg : Config) : String :=
  cfg.checkpoints_dir ++ "/" ++ cfg.data_loaders_basename

/-- The two vocabularies the pipeline builds: both `tokenize` calls in
`src/nmt/preprocess.py` lines 63-65 consume `raw_datasets['train']` (after
normalization) with `min_freq=2`, one per language. -/
def builtVocabs (cfg : Config) (norm : String → String → String)
    (d : DatasetDict) : Vocab × Vocab :=
  let d3 := normDD [cfg.src_lang, cfg.target_lang] norm d
  (trainVocab (sentencesOf d3.train cfg.src_lang) 2,
   trainVocab (sentencesOf d3.train cfg.target_lang) 2)

/-- The pad-id assertion and pad-id extraction of `src/nmt/preprocess.py`
lines 106-107: abort when the two `PAD` ids differ, otherwise return the
common id that is then passed to the collator. -/
def padAssertStep (srcV tgtV : Vocab) : Except PErr (Option Nat) :=
  if tokenToId srcV PAD_TOKEN = tokenToId tgtV PAD_TOKEN then
    .ok (tokenToId srcV PAD_TOKEN)
  else
    .error .assertionError

instance {ε α : Type} [DecidableEq ε] [DecidableEq α] : DecidableEq (Except ε α) :=
  fun x y =>
    match x, y with
    | .ok a, .ok b =>
      if h : a = b then isTrue (by rw [h])
      else isFalse (fun hc => h (Except.ok.inj hc))
    | .error a, .error b =>
      if h : a = b then isTrue (by rw [h])
      else isFalse (fun hc => h (Except.error.inj hc))
    | .ok _, .error _ => isFalse (fun hc => Except.noConfusion hc)
    | .error _, .ok _ => isFalse (fun hc => Except.noConfusion hc)

/-- Result of one pipeline run: the outcome, the list of file paths written
to `checkpoints_dir` in order, and the pad id handed to the collator when
collation was reached (`none` when the run aborted before collation). -/
structure PipelineRun where
  result : Except PErr Unit
  writes : List String
  collatorPad : Option (Option Nat)
deriving Repr, DecidableEq

/-- The `preprocess` pipeline of `src/nmt/preprocess.py`, stage by stage:
truncation (lines 43-45), validation-split derivation (lines 47-53),
normalization (lines 56-59), vocabulary building with the two tokenizer
files written immediately (lines 63-65, writing inside `tokenize` at
line 33), length filtering with budget `seq_length - 2` (lines 67-75),
dataset-wrapper construction which raises `KeyError` on an absent
`validation` or `test` split (lines 83-105), the pad-id assertion
(line 106), and the final bundle write (line 126). -/
def preprocessModel (cfg : Config) (norm : String → String → String)
    (raw : DatasetDict) : PipelineRun :=
  let d1 : DatasetDict :=
    { raw with train := truncStep cfg.max_train_set_size cfg.seed raw.train }
  match valSplitStep cfg.seed cfg.val_size_rate d1 with
  | .error e => ⟨.error e, [], none⟩
  | .ok d2 =>
    let d3 := normDD [cfg.src_lang, cfg.target_lang] norm d2
    let vocabs := builtVocabs cfg norm d2
    let ws := [tokenizerPath cfg cfg.src_lang, tokenizerPath cfg cfg.target_lang]
    let d4 := filterAll cfg.src_lang cfg.target_lang (cfg.seq_length - 2) d3
    match d4.validation, d4.test with
    | none, _ => ⟨.error .keyError, ws, none⟩
    | some _, none => ⟨.error .keyError, ws, none⟩
    | some _, some _ =>
      match padAssertStep vocabs.1 vocabs.2 with
      | .error e => ⟨.error e, ws, none⟩
      | .ok p => ⟨.ok (), ws ++ [dataLoadersPath cfg], some p⟩

/-! Embedding of `src/nmt/utils/stats.py`. Python objects hold references
to mutable lists; the two default-argument lists `pred=[]` and `labels=[]`
of `Stats.__init__` are evaluated once at function-definition time and
shared by every default construction. The heap below makes those list
references explicit: a `Stats` value stores the indices of its `pred` and
`labels` cells, and the two default cells are allocated once in `initHeap`.
Python `float` arithmetic on the accumulated loss is embedded over `Rat`;
the claims under verification do not depend on floating-point rounding. -/

/-- Heap of list-of-array buffers; an array (`np.ndarray`, raveled) is a
`List Int`. -/
abbrev Heap := List (List (List Int))

/-- Index of the shared default `pred` buffer. -/
def defaultPredRef : Nat := 0

/-- Index of the shared default `labels` buffer. -/
def defaultLabelsRef : Nat := 1

/-- The heap at module-initialisation time: the two default-argument lists
of `Stats.__init__`, both empty, allocated exactly once. -/
def initHeap : Heap := [[], []]

/-- The `Stats` object of `src/nmt/utils/stats.py`: the scalar fields are
per-object, `predRef` and `labelsRef` are references into the heap. -/
structure Stats where
  num_batchs : Nat
  loss : Rat
  predRef : Nat
  labelsRef : Nat
  f_score_beta : Rat
  average : String
  pad_token_id : Option Int
  ignore_padding : Bool
  num_matches : Nat
  num_totals : Nat
deriving Repr, DecidableEq

/-- `Stats.__init__` (`src/nmt/utils/stats.py` lines 11-35): raises
`ValueError` when `ignore_padding` is true and `pad_token_id` is `None`,
otherwise stores the arguments and zero-initialises the match counters. -/
def Stats.init (num_batchs : Nat) (loss : Rat) (predRef labelsRef : Nat)
    (f_score_beta : Rat) (average : String) (pad_token_id : Option Int)
    (ignore_padding : Bool) : Except String Stats :=
  if ignore_padding = true ∧ pad_token_id = none then
    .error "pad_token_id must be provided if ignore_padding is True"
  else
    .ok ⟨num_batchs, loss, predRef, labelsRef, f_score_beta, average,
         pad_token_id, ignore_padding, 0, 0⟩

/-- A `Stats()` call with every argument left at its default: the buffer
references are the two shared default cells. -/
def defaultStats : Stats :=
  ⟨0, 0, defaultPredRef, defaultLabelsRef, 1 / 2, "weighted", none, false, 0, 0⟩

/-- Whether an element equals the pad id (`x != self.pad_token_id` is
elementwise true for every `x` when the pad id is `None`). -/
def isPadId (pad : Option Int) (x : Int) : Bool :=
  match pad with
  | none => false
  | some p => x = p

/-- Append one array to the heap cell at index `i` (a Python
`list.append`). -/
def heapAppend (h : Heap) (i : Nat) (a : List Int) : Heap :=
  h.set i (h.getD i [] ++ [a])

/-- `Stats.update_step` (`src/nmt/utils/stats.py` lines 37-65): accumulate
loss and batch count, count pad-aware matches and totals, optionally drop
pad positions, and append the arrays to the `pred` and `labels` buffers.
Mismatched input shapes fail (the numpy broadcast / shape assertion). -/
def Stats.update_step (s : Stats) (h : Heap) (loss : Rat)
    (y_pred y_true : List Int) : Except String (Stats × Heap) :=
  if y_pred.length ≠ y_true.length then
    .error "operands could not be broadcast together"
  else
    let pairs := y_pred.zip y_true
    let nm := pairs.countP (fun pt => decide (pt.1 = pt.2) && !isPadId s.pad_token_id pt.1)
    let nt := y_true.countP (fun t => !isPadId s.pad_token_id t)
    let kept := pairs.filter (fun pt => !isPadId s.pad_token_id pt.2)
    let yp2 := if s.ignore_padding then kept.map Prod.fst else y_pred
    let yt2 := if s.ignore_padding then kept.map Prod.snd else y_true
    let s2 : Stats :=
      { s with
        loss := s.loss + loss
        num_batchs := s.num_batchs + 1
        num_matches := s.num_matches + nm
        num_totals := s.num_totals + nt }
    .ok (s2, heapAppend (heapAppend h s.predRef yp2) s.labelsRef yt2)

/-- The metrics dictionary returned by `Stats.compute`. -/
structure Metrics where
  loss : Rat
  acc : Rat
  precisionScore : Rat
  recallScore : Rat
  f_beta : Rat
deriving Repr, DecidableEq

/-- Division by a natural denominator, returning 0 on a zero denominator
(sklearn's zero-division default for per-class metrics). -/
def safeDivN (a : Rat) (b : Nat) : Rat := if b = 0 then 0 else a / (b : Rat)

/-- Fraction of positions where prediction equals label. Modelled from the
spec: `accuracy_score` of the external sklearn library. -/
def accuracyScore (y_true y_pred : List Int) : Rat :=
  safeDivN ((y_true.zip y_pred).countP (fun pt => decide (pt.1 = pt.2)) : Rat)
    y_true.length

/-- True positives of one class. -/
def tpOf (y_true y_pred : List Int) (c : Int) : Nat :=
  (y_true.zip y_pred).countP (fun pt => decide (pt.1 = c) && decide (pt.2 = c))

/-- Per-class precision. -/
def precOf (y_true y_pred : List Int) (c : Int) : Rat :=
  safeDivN (tpOf y_true y_pred c : Rat) (y_pred.count c)

/-- Per-class recall. -/
def recOf (y_true y_pred : List Int) (c : Int) : Rat :=
  safeDivN (tpOf y_true y_pred c : Rat) (y_true.count c)

/-- Per-class F-beta score. -/
def fbetaOf (y_true y_pred : List Int) (beta : Rat) (c : Int) : Rat :=
  let p := precOf y_true y_pred c
  let r := recOf y_true y_pred c
  if beta ^ 2 * p + r = 0 then 0 else (1 + beta ^ 2) * p * r / (beta ^ 2 * p + r)

/-- Support-weighted average of a per-class metric over the classes present
in `y_true`. Modelled from the spec: `precision_recall_fscore_support`
with `average='weighted'` of the external sklearn library. -/
def weightedAvg (y_true : List Int) (f : Int → Rat) : Rat :=
  safeDivN ((y_true.dedup.map (fun c => (y_true.count c : Rat) * f c)).sum)
    y_true.length

/-- `Stats.compute` (`src/nmt/utils/stats.py` lines 68-93): concatenating
an empty buffer list raises, dividing the loss by zero batches raises,
otherwise the metrics dictionary is returned. -/
def Stats.compute (s : Stats) (h : Heap) : Except String Metrics :=
  let predList := h.getD s.predRef []
  let labelsList := h.getD s.labelsRef []
  if predList.isEmpty then .error "need at least one array to concatenate"
  else if labelsList.isEmpty then .error "need at least one array to concatenate"
  else if s.num_batchs = 0 then .error "float division by zero"
  else
    let y_pred := predList.flatten
    let y_true := labelsList.flatten
    if y_pred.length ≠ y_true.length then
      .error "inconsistent numbers of samples"
    else
      .ok { loss := s.loss / (s.num_batchs : Rat),
            acc := accuracyScore y_true y_pred,
            precisionScore := weightedAvg y_true (precOf y_true y_pred),
            recallScore := weightedAvg y_true (recOf y_true y_pred),
            f_beta := weightedAvg y_true (fbetaOf y_true y_pred s.f_score_beta) }

/-! Helper lemmas. -/

theorem get_cons_eraseIdx_perm {α : Type} :
    ∀ (l : List α) (i : Nat) (h : i < l.length),
      (l.get ⟨i, h⟩ :: l.eraseIdx i).Perm l := by
  intro l
  induction l with
  | nil => intro i h; exact absurd h (by simp)
  | cons x xs ih =>
    intro i h
    cases i with
    | zero => simp [List.eraseIdx]
    | succ i =>
      have hi : i < xs.length := by simpa using h
      simpa [List.eraseIdx] using
        ((List.Perm.swap x (xs.get ⟨i, hi⟩) (xs.eraseIdx i)).trans
          (List.Perm.cons x (ih i hi)))

theorem shuffleAux_perm {α : Type} :
    ∀ (n s : Nat) (xs : List α), xs.length = n → (shuffleAux n s xs).Perm xs := by
  intro n
  induction n with
  | zero =>
    intro s xs h
    have : xs = [] := List.length_eq_zero.mp h
    simp [this, shuffleAux]
  | succ n ih =>
    intro s xs h
    match xs with
    | [] => simp at h
    | x :: rest =>
      have hlt : s % (x :: rest).length < (x :: rest).length :=
        Nat.mod_lt _ (Nat.succ_pos _)
      have hlen : ((x :: rest).eraseIdx (s % (x :: rest).length)).length = n := by
        have := List.length_eraseIdx_add_one hlt
        omega
      exact (List.Perm.cons _ (ih (lcgNext s) _ hlen)).trans
        (get_cons_eraseIdx_perm (x :: rest) _ hlt)

theorem shuffle_perm {α : Type} (seed : Nat) (xs : List α) :
    (shuffle seed xs).Perm xs :=
  shuffleAux_perm xs.length seed xs rfl

theorem mem_insertByFreq (cnt : String → Nat) (v w : String) :
    ∀ l : List String, w ∈ insertByFreq cnt v l ↔ w = v ∨ w ∈ l := by
  intro l
  induction l with
  | nil => simp [insertByFreq]
  | cons x xs ih =>
    by_cases h : cnt x < cnt v
    · simp [insertByFreq, h]
    · simp [insertByFreq, h, ih]
      tauto

theorem mem_sortByFreq (cnt : String → Nat) (w : String) :
    ∀ l : List String, w ∈ sortByFreq cnt l ↔ w ∈ l := by
  intro l
  induction l with
  | nil => simp [sortByFreq]
  | cons x xs ih => simp [sortByFreq, mem_insertByFreq, ih]

theorem mem_trainVocab (sentences : List String) (minFreq : Nat) (t : String) :
    t ∈ trainVocab sentences minFreq →
      t ∈ specialTokens ∨ minFreq ≤ (allWords sentences).count t := by
  intro h
  rcases List.mem_append.mp h with h1 | h2
  · exact Or.inl h1
  · right
    have := (List.mem_filter.mp h2).2
    simpa using (Bool.and_elim_left this)

theorem tokenToId_cons_ne {x t : String} (l : List String) (h : x ≠ t) :
    tokenToId (x :: l) t = (tokenToId l t).map (fun i => i + 1) := by
  simp [tokenToId, h]

theorem tokenToId_cons_self (t : String) (l : List String) :
    tokenToId (t :: l) t = some 0 := by
  simp [tokenToId]

theorem tokenToId_isSome_of_mem {t : String} :
    ∀ {l : List String}, t ∈ l → ∃ i, tokenToId l t = some i := by
  intro l
  induction l with
  | nil => intro h; simp at h
  | cons x xs ih =>
    intro h
    by_cases hx : x = t
    · exact ⟨0, by simp [tokenToId, hx]⟩
    · have ht : t ∈ xs := by
        rcases List.mem_cons.mp h with h' | h'
        · exact absurd h'.symm hx
        · exact h'
      rcases ih ht with ⟨i, hi⟩
      exact ⟨i + 1, by simp [tokenToId, hx, hi]⟩

theorem tokenToId_append_of_not_mem {t : String} :
    ∀ (l1 l2 : List String), t ∉ l1 →
      tokenToId (l1 ++ l2) t = (tokenToId l2 t).map (fun i => i + l1.length) := by
  intro l1
  induction l1 with
  | nil => intro l2 _; simp
  | cons x xs ih =>
    intro l2 h
    have hx : x ≠ t := fun hc => h (by simp [hc])
    have hxs : t ∉ xs := fun hc => h (by simp [hc])
    rw [List.cons_append, tokenToId_cons_ne _ hx, ih l2 hxs]
    cases tokenToId l2 t with
    | none => simp
    | some i => simp; omega

theorem trainVocab_id_PAD (s : List String) (m : Nat) :
    tokenToId (trainVocab s m) PAD_TOKEN = some 0 := by
  simp [trainVocab, specialTokens, tokenToId]

theorem trainVocab_id_SOS (s : List String) (m : Nat) :
    tokenToId (trainVocab s m) SOS_TOKEN = some 1 := by
  simp [trainVocab, specialTokens, tokenToId, PAD_TOKEN, SOS_TOKEN]

theorem trainVocab_id_EOS (s : List String) (m : Nat) :
    tokenToId (trainVocab s m) EOS_TOKEN = some 2 := by
  simp [trainVocab, specialTokens, tokenToId, PAD_TOKEN, SOS_TOKEN, EOS_TOKEN]

theorem trainVocab_id_UNK (s : List String) (m : Nat) :
    tokenToId (trainVocab s m) UNK_TOKEN = some 3 := by
  simp [trainVocab, specialTokens, tokenToId, PAD_TOKEN, SOS_TOKEN, EOS_TOKEN,
    UNK_TOKEN]

theorem padAssertStep_trainVocab (s1 s2 : List String) (m1 m2 : Nat) :
    padAssertStep (trainVocab s1 m1) (trainVocab s2 m2) = .ok (some 0) := by
  simp [padAssertStep, trainVocab_id_PAD]

theorem preprocessModel_cases (cfg : Config) (norm : String → String → String)
    (raw : DatasetDict) :
    (∃ e, preprocessModel cfg norm raw = ⟨.error e, [], none⟩) ∨
    (∃ e, preprocessModel cfg norm raw =
      ⟨.error e,
       [tokenizerPath cfg cfg.src_lang, tokenizerPath cfg cfg.target_lang],
       none⟩) ∨
    preprocessModel cfg norm raw =
      ⟨.ok (),
       [tokenizerPath cfg cfg.src_lang, tokenizerPath cfg cfg.target_lang,
        dataLoadersPath cfg],
       some (some 0)⟩ := by
  unfold preprocessModel
  cases hv : valSplitStep cfg.seed cfg.val_size_rate
      { raw with train := truncStep cfg.max_train_set_size cfg.seed raw.train } with
  | error e => exact Or.inl ⟨e, by simp [hv]⟩
  | ok d2 =>
    cases hval : (filterAll cfg.src_lang cfg.target_lang (cfg.seq_length - 2)
        (normDD [cfg.src_lang, cfg.target_lang] norm d2)).validation with
    | none => exact Or.inr (Or.inl ⟨.keyError, by simp [hv, hval]⟩)
    | some v =>
      cases htest : (filterAll cfg.src_lang cfg.target_lang (cfg.seq_length - 2)
          (normDD [cfg.src_lang, cfg.target_lang] norm d2)).test with
      | none => exact Or.inr (Or.inl ⟨.keyError, by simp [hv, hval, htest]⟩)
      | some t =>
        exact Or.inr (Or.inr (by
          simp [hv, hval, htest, builtVocabs, padAssertStep_trainVocab]))

theorem compute_ok_of (s : Stats) (h : Heap)
    (hp : h.getD s.predRef [] ≠ [])
    (hl : h.getD s.labelsRef [] ≠ [])
    (hb : s.num_batchs ≠ 0)
    (hlen : (h.getD s.predRef []).flatten.length =
      (h.getD s.labelsRef []).flatten.length) :
    ∃ m, Stats.compute s h = .ok m := by
  simp only [Stats.compute]
  rw [if_neg (by simpa [List.isEmpty_iff, List.getD_eq_getElem?_getD] using hp),
    if_neg (by simpa [List.isEmpty_iff, List.getD_eq_getElem?_getD] using hl),
    if_neg hb,
    if_neg (by simpa [List.getD_eq_getElem?_getD] using hlen)]
  exact ⟨_, rfl⟩

/-! Claim theorems. -/

/-- C1: Vocabulary isolation (noninterference): for any two pipeline runs
with identical configuration, normalizer and train-split contents, the
source and target vocabularies built by the two `tokenize` calls are
identical however the validation and test splits differ, since both calls
consume only the train split; moreover every token of a built vocabulary
is a sentinel or occurs with frequency at least `min_freq = 2` in the
(normalized) train text of its language. -/
theorem vocabulary_isolation (cfg : Config) (norm : String → String → String)
    (d1 d2 : DatasetDict) :
    (d1.train = d2.train → builtVocabs cfg norm d1 = builtVocabs cfg norm d2) ∧
    (∀ t, t ∈ (builtVocabs cfg norm d1).1 →
      t ∈ specialTokens ∨
        2 ≤ (allWords (sentencesOf
          (normDD [cfg.src_lang, cfg.target_lang] norm d1).train
          cfg.src_lang)).count t) ∧
    (∀ t, t ∈ (builtVocabs cfg norm d1).2 →
      t ∈ specialTokens ∨
        2 ≤ (allWords (sentencesOf
          (normDD [cfg.src_lang, cfg.target_lang] norm d1).train
          cfg.target_lang)).count t) := by
  refine ⟨fun h => ?_, fun t ht => ?_, fun t ht => ?_⟩
  · simp only [builtVocabs, normDD, h]
  · exact mem_trainVocab _ _ _ ht
  · exact mem_trainVocab _ _ _ ht

/-- Witness for C1 at concrete inputs: the two runs differ in their
validation and test splits yet build equal vocabularies, and the induced
token "a" indeed occurs at least twice in the train text. -/
theorem vocabulary_isolation_witness :
    builtVocabs ⟨none, none, 0, "en", "vi", 6, "ckpt", "tok_\x7b\x7d.json", "dl.pt"⟩
        (fun _ t => t) ⟨[[("en", "a a"), ("vi", "b b")]], none, none⟩ =
      builtVocabs ⟨none, none, 0, "en", "vi", 6, "ckpt", "tok_\x7b\x7d.json", "dl.pt"⟩
        (fun _ t => t)
        ⟨[[("en", "a a"), ("vi", "b b")]], some [[("en", "zz zz"), ("vi", "qq qq")]],
         some [[("en", "ww"), ("vi", "rr")]]⟩ ∧
    ("a" ∈ specialTokens ∨
      2 ≤ (allWords (sentencesOf
        (normDD ["en", "vi"] (fun _ t => t)
          ⟨[[("en", "a a"), ("vi", "b b")]], none, none⟩).train "en")).count "a") :=
  ⟨(vocabulary_isolation ⟨none, none, 0, "en", "vi", 6, "ckpt", "tok_\x7b\x7d.json", "dl.pt"⟩
      (fun _ t => t) ⟨[[("en", "a a"), ("vi", "b b")]], none, none⟩
      ⟨[[("en", "a a"), ("vi", "b b")]], some [[("en", "zz zz"), ("vi", "qq qq")]],
       some [[("en", "ww"), ("vi", "rr")]]⟩).1 rfl,
   (vocabulary_isolation ⟨none, none, 0, "en", "vi", 6, "ckpt", "tok_\x7b\x7d.json", "dl.pt"⟩
      (fun _ t => t) ⟨[[("en", "a a"), ("vi", "b b")]], none, none⟩
      ⟨[[("en", "a a"), ("vi", "b b")]], none, none⟩).2.1 "a" (by decide)⟩

/-- C2: Pad-id consistency: the pad-id assertion step errors exactly when
the two vocabularies' `PAD` ids differ, and when it succeeds the id it
hands to the collator is that common value; in every pipeline run that
reaches collation the pad id passed to the collator is `some 0`. -/
theorem pad_id_consistency :
    (∀ srcV tgtV : Vocab,
      (padAssertStep srcV tgtV = .error .assertionError ↔
        tokenToId srcV PAD_TOKEN ≠ tokenToId tgtV PAD_TOKEN) ∧
      ∀ p, padAssertStep srcV tgtV = .ok p →
        tokenToId srcV PAD_TOKEN = tokenToId tgtV PAD_TOKEN ∧
        p = tokenToId srcV PAD_TOKEN) ∧
    ∀ (cfg : Config) (norm : String → String → String) (raw : DatasetDict)
      (p : Option Nat),
      (preprocessModel cfg norm raw).collatorPad = some p → p = some 0 := by
  constructor
  · intro srcV tgtV
    by_cases h : tokenToId srcV PAD_TOKEN = tokenToId tgtV PAD_TOKEN
    · constructor
      · simp [padAssertStep, h]
      · intro p hp
        simp [padAssertStep, h] at hp
        exact ⟨h, hp.symm.trans h.symm⟩
    · constructor
      · simp [padAssertStep, h]
      · intro p hp
        simp [padAssertStep, h] at hp
  · intro cfg norm raw p hp
    rcases preprocessModel_cases cfg norm raw with ⟨e, he⟩ | ⟨e, he⟩ | he <;>
      rw [he] at hp <;> simp at hp
    exact hp.symm

/-- Witness for C2 at concrete inputs: a pad-id mismatch aborts, a pair of
trained vocabularies passes with the common id `some 0`, and a concrete
successful run hands `some 0` to the collator. -/
theorem pad_id_consistency_witness :
    padAssertStep [PAD_TOKEN] ["x", PAD_TOKEN] = .error .assertionError ∧
    (tokenToId (trainVocab ["a a"] 2) PAD_TOKEN =
       tokenToId (trainVocab ["b b"] 2) PAD_TOKEN ∧
     (some 0 : Option Nat) = tokenToId (trainVocab ["a a"] 2) PAD_TOKEN) ∧
    (some 0 : Option Nat) = some 0 :=
  ⟨(pad_id_consistency.1 [PAD_TOKEN] ["x", PAD_TOKEN]).1.mpr (by decide),
   (pad_id_consistency.1 (trainVocab ["a a"] 2) (trainVocab ["b b"] 2)).2
     (some 0) (by decide),
   pad_id_consistency.2
     ⟨none, none, 0, "en", "vi", 6, "ckpt", "tok_\x7b\x7d.json", "dl.pt"⟩
     (fun _ t => t) ⟨[[("en", "a b"), ("vi", "c d")]], some [], some []⟩
     (some 0) (by decide)⟩

/-- C5: Sentinel ordering: every vocabulary built by vocabulary training
contains the four sentinels at the fixed ids `PAD=0, SOS=1, EOS=2, UNK=3`;
these ids are identical across any two built vocabularies (in particular
across the source- and target-language vocabularies), and every
non-sentinel vocabulary token has an id of at least 4. -/
theorem sentinel_ordering (s1 s2 : List String) (m1 m2 : Nat) :
    (tokenToId (trainVocab s1 m1) PAD_TOKEN = some 0 ∧
     tokenToId (trainVocab s1 m1) SOS_TOKEN = some 1 ∧
     tokenToId (trainVocab s1 m1) EOS_TOKEN = some 2 ∧
     tokenToId (trainVocab s1 m1) UNK_TOKEN = some 3) ∧
    (tokenToId (trainVocab s1 m1) PAD_TOKEN =
       tokenToId (trainVocab s2 m2) PAD_TOKEN ∧
     tokenToId (trainVocab s1 m1) SOS_TOKEN =
       tokenToId (trainVocab s2 m2) SOS_TOKEN ∧
     tokenToId (trainVocab s1 m1) EOS_TOKEN =
       tokenToId (trainVocab s2 m2) EOS_TOKEN ∧
     tokenToId (trainVocab s1 m1) UNK_TOKEN =
       tokenToId (trainVocab s2 m2) UNK_TOKEN) ∧
    ∀ t, t ∉ specialTokens → t ∈ trainVocab s1 m1 →
      ∃ i, tokenToId (trainVocab s1 m1) t = some i ∧ 4 ≤ i := by
  refine ⟨⟨trainVocab_id_PAD s1 m1, trainVocab_id_SOS s1 m1,
           trainVocab_id_EOS s1 m1, trainVocab_id_UNK s1 m1⟩,
          ⟨?_, ?_, ?_, ?_⟩, fun t hns hmem => ?_⟩
  · rw [trainVocab_id_PAD, trainVocab_id_PAD]
  · rw [trainVocab_id_SOS, trainVocab_id_SOS]
  · rw [trainVocab_id_EOS, trainVocab_id_EOS]
  · rw [trainVocab_id_UNK, trainVocab_id_UNK]
  · rcases List.mem_append.mp hmem with h | h
    · exact absurd h hns
    · rcases tokenToId_isSome_of_mem h with ⟨i, hi⟩
      refine ⟨i + 4, ?_, by omega⟩
      rw [trainVocab, tokenToId_append_of_not_mem specialTokens _ hns, hi]
      rfl

/-- Witness for C5: the non-sentinel implication discharged on a concrete
vocabulary where "a" is an induced token. -/
theorem sentinel_ordering_witness :
    ∃ i, tokenToId (trainVocab ["a a"] 2) "a" = some i ∧ 4 ≤ i :=
  (sentinel_ordering ["a a"] [] 2 0).2.2 "a" (by decide) (by decide)

/-- C3: Length-filter budget: a sentence pair of any split is retained by
the filtering step iff neither its source-side nor its target-side token
count exceeds the budget `seq_length - 2` (one slot each reserved for SOS
and EOS); equivalently it is removed iff one side exceeds the budget.
Retained pairs are kept unchanged and in order (the filtered split is a
sublist), and the pipeline applies this same filter to the train,
validation and test splits. -/
theorem length_filter_budget (cfg : Config) (rows : List Row) (r : Row)
    (d : DatasetDict) :
    (r ∈ rows →
      (r ∈ removeInvalidSentences cfg.src_lang cfg.target_lang
            (cfg.seq_length - 2) rows ↔
        ¬(cfg.seq_length - 2 < tokCount (getLang r cfg.src_lang) ∨
          cfg.seq_length - 2 < tokCount (getLang r cfg.target_lang)))) ∧
    (removeInvalidSentences cfg.src_lang cfg.target_lang
      (cfg.seq_length - 2) rows).Sublist rows ∧
    (filterAll cfg.src_lang cfg.target_lang (cfg.seq_length - 2) d).train =
      removeInvalidSentences cfg.src_lang cfg.target_lang
        (cfg.seq_length - 2) d.train ∧
    (filterAll cfg.src_lang cfg.target_lang (cfg.seq_length - 2) d).validation =
      d.validation.map
        (removeInvalidSentences cfg.src_lang cfg.target_lang (cfg.seq_length - 2)) ∧
    (filterAll cfg.src_lang cfg.target_lang (cfg.seq_length - 2) d).test =
      d.test.map
        (removeInvalidSentences cfg.src_lang cfg.target_lang (cfg.seq_length - 2)) := by
  refine ⟨fun hr => ?_, List.filter_sublist _, rfl, rfl, rfl⟩
  simp only [removeInvalidSentences, List.mem_filter, hr, true_and, keepPair,
    Bool.and_eq_true, decide_eq_true_eq]
  omega

/-- Witness for C3: on a concrete split with budget 4, the short pair is
retained and the filtered split is a sublist. -/
theorem length_filter_budget_witness :
    ([("en", "a b"), ("vi", "c d")] ∈
      removeInvalidSentences "en" "vi" (6 - 2)
        [[("en", "a b"), ("vi", "c d")], [("en", "a a a a a a"), ("vi", "c")]] ↔
      ¬(6 - 2 < tokCount (getLang [("en", "a b"), ("vi", "c d")] "en") ∨
        6 - 2 < tokCount (getLang [("en", "a b"), ("vi", "c d")] "vi"))) ∧
    (removeInvalidSentences "en" "vi" (6 - 2)
      [[("en", "a b"), ("vi", "c d")], [("en", "a a a a a a"), ("vi", "c")]]).Sublist
      [[("en", "a b"), ("vi", "c d")], [("en", "a a a a a a"), ("vi", "c")]] :=
  ⟨(length_filter_budget
      ⟨none, none, 0, "en", "vi", 6, "ckpt", "tok_\x7b\x7d.json", "dl.pt"⟩
      [[("en", "a b"), ("vi", "c d")], [("en", "a a a a a a"), ("vi", "c")]]
      [("en", "a b"), ("vi", "c d")] ⟨[], none, none⟩).1 (by decide),
   (length_filter_budget
      ⟨none, none, 0, "en", "vi", 6, "ckpt", "tok_\x7b\x7d.json", "dl.pt"⟩
      [[("en", "a b"), ("vi", "c d")], [("en", "a a a a a a"), ("vi", "c")]]
      [("en", "a b"), ("vi", "c d")] ⟨[], none, none⟩).2.1⟩

/-- C4 counterexample: a run with no configured validation fraction and an
input lacking a validation split fails with `KeyError` at dataset-wrapper
construction, yet by then the two tokenizer files have already been
written to `checkpoints_dir` (inside `tokenize`), so a failing run can
leave artifacts behind, contrary to the claim. -/
theorem no_partial_artifacts_cex :
    (preprocessModel
      ⟨none, none, 0, "en", "vi", 6, "ckpt", "tok_\x7b\x7d.json", "dl.pt"⟩
      (fun _ t => t) ⟨[[("en", "a b"), ("vi", "c d")]], none, some []⟩).result =
      .error .keyError ∧
    (preprocessModel
      ⟨none, none, 0, "en", "vi", 6, "ckpt", "tok_\x7b\x7d.json", "dl.pt"⟩
      (fun _ t => t) ⟨[[("en", "a b"), ("vi", "c d")]], none, some []⟩).writes =
      ["ckpt/tok_en.json", "ckpt/tok_vi.json"] := by
  constructor <;> decide

/-- C4 amended: the tokenizer files are written during vocabulary building,
before filtering, dataset-wrapper construction and the pad-id assertion;
a failing run has written either nothing (failure before vocabulary
building) or exactly the two tokenizer files, and the data-loaders bundle
is written only as the final step of a fully successful run. -/
theorem no_partial_artifacts_amended (cfg : Config)
    (norm : String → String → String) (raw : DatasetDict) :
    ((preprocessModel cfg norm raw).result = .ok () →
      (preprocessModel cfg norm raw).writes =
        [tokenizerPath cfg cfg.src_lang, tokenizerPath cfg cfg.target_lang,
         dataLoadersPath cfg]) ∧
    ∀ e, (preprocessModel cfg norm raw).result = .error e →
      (preprocessModel cfg norm raw).writes = [] ∨
      (preprocessModel cfg norm raw).writes =
        [tokenizerPath cfg cfg.src_lang, tokenizerPath cfg cfg.target_lang] := by
  rcases preprocessModel_cases cfg norm raw with ⟨e, he⟩ | ⟨e, he⟩ | he <;>
    rw [he] <;> simp

/-- Witness for C4 amended: a successful run writes exactly the two
tokenizer files and then the bundle; the failing run of the
counterexample's shape leaves exactly the two tokenizer files. -/
theorem no_partial_artifacts_amended_witness :
    (preprocessModel
      ⟨none, none, 0, "en", "vi", 6, "ckpt", "tok_\x7b\x7d.json", "dl.pt"⟩
      (fun _ t => t) ⟨[[("en", "a b"), ("vi", "c d")]], some [], some []⟩).writes =
      [tokenizerPath
        ⟨none, none, 0, "en", "vi", 6, "ckpt", "tok_\x7b\x7d.json", "dl.pt"⟩ "en",
       tokenizerPath
        ⟨none, none, 0, "en", "vi", 6, "ckpt", "tok_\x7b\x7d.json", "dl.pt"⟩ "vi",
       dataLoadersPath
        ⟨none, none, 0, "en", "vi", 6, "ckpt", "tok_\x7b\x7d.json", "dl.pt"⟩] ∧
    ((preprocessModel
      ⟨none, none, 0, "en", "vi", 6, "ckpt", "tok_\x7b\x7d.json", "dl.pt"⟩
      (fun _ t => t) ⟨[[("en", "a b"), ("vi", "c d")]], none, none⟩).writes = [] ∨
     (preprocessModel
      ⟨none, none, 0, "en", "vi", 6, "ckpt", "tok_\x7b\x7d.json", "dl.pt"⟩
      (fun _ t => t) ⟨[[("en", "a b"), ("vi", "c d")]], none, none⟩).writes =
      [tokenizerPath
        ⟨none, none, 0, "en", "vi", 6, "ckpt", "tok_\x7b\x7d.json", "dl.pt"⟩ "en",
       tokenizerPath
        ⟨none, none, 0, "en", "vi", 6, "ckpt", "tok_\x7b\x7d.json", "dl.pt"⟩ "vi"]) :=
  ⟨(no_partial_artifacts_amended
      ⟨none, none, 0, "en", "vi", 6, "ckpt", "tok_\x7b\x7d.json", "dl.pt"⟩
      (fun _ t => t) ⟨[[("en", "a b"), ("vi", "c d")]], some [], some []⟩).1
      (by decide),
   (no_partial_artifacts_amended
      ⟨none, none, 0, "en", "vi", 6, "ckpt", "tok_\x7b\x7d.json", "dl.pt"⟩
      (fun _ t => t) ⟨[[("en", "a b"), ("vi", "c d")]], none, none⟩).2
      .keyError (by decide)⟩

/-- C6: Validation derivation: with a configured validation fraction `v`
and a present test split, the split step succeeds and partitions the
(possibly truncated) train split by a seeded permutation into the new
`train` and `validation` splits, whose sizes sum to the original train
size and which together are a permutation of it (disjoint index sets),
while the `test` split is carried through unchanged. -/
theorem validation_derivation (seed : Nat) (v : Rat) (tr : List Row)
    (vd : Option (List Row)) (t : List Row) :
    ∃ newTr val,
      valSplitStep seed (some v) ⟨tr, vd, some t⟩ = .ok ⟨newTr, some val, some t⟩ ∧
      newTr.length + val.length = tr.length ∧
      val.length = min (nTestOf v tr.length) tr.length ∧
      (val ++ newTr).Perm tr := by
  refine ⟨(shuffle seed tr).drop (nTestOf v tr.length),
          (shuffle seed tr).take (nTestOf v tr.length), rfl, ?_, ?_, ?_⟩
  · have hlen := (shuffle_perm seed tr).length_eq
    rw [List.length_drop, List.length_take]
    omega
  · have hlen := (shuffle_perm seed tr).length_eq
    rw [List.length_take, hlen]
  · exact (List.take_append_drop _ _).symm ▸ shuffle_perm seed tr

/-- C7: Train truncation: with `max_train_set_size = m` configured and
smaller than the raw train split, the split becomes a seeded shuffle
truncated to exactly `m` rows, a sub-permutation (subset) of the original
rows; otherwise (a larger bound, or none configured) the split is
unchanged; and the step is a function of the seed and input alone, so two
runs with equal seed and input agree. -/
theorem train_truncation (m seed : Nat) (tr : List Row) :
    (m < tr.length →
      (truncStep (some m) seed tr).length = m ∧
      (truncStep (some m) seed tr).Subperm tr) ∧
    (¬m < tr.length → truncStep (some m) seed tr = tr) ∧
    truncStep none seed tr = tr ∧
    ∀ (mts' : Option Nat) (seed' : Nat) (tr' : List Row),
      mts' = some m → seed' = seed → tr' = tr →
      truncStep mts' seed' tr' = truncStep (some m) seed tr := by
  refine ⟨fun h => ⟨?_, ?_⟩, fun h => ?_, rfl, ?_⟩
  · have hlen := (shuffle_perm seed tr).length_eq
    simp [truncStep, h]
    omega
  · simp only [truncStep, if_pos h]
    exact ((List.take_sublist _ _).subperm).trans (shuffle_perm seed tr).subperm
  · simp [truncStep, h]
  · intro mts' seed' tr' h1 h2 h3
    rw [h1, h2, h3]

/-- Witness for C7: truncation to 1 row of a 2-row split has length 1 and
is a sub-permutation; a bound of 5 leaves the 2-row split unchanged. -/
theorem train_truncation_witness :
    ((truncStep (some 1) 0 [[("en", "x")], [("en", "y")]]).length = 1 ∧
     (truncStep (some 1) 0 [[("en", "x")], [("en", "y")]]).Subperm
       [[("en", "x")], [("en", "y")]]) ∧
    truncStep (some 5) 0 [[("en", "x")], [("en", "y")]] =
      [[("en", "x")], [("en", "y")]] :=
  ⟨(train_truncation 1 0 [[("en", "x")], [("en", "y")]]).1 (by decide),
   (train_truncation 5 0 [[("en", "x")], [("en", "y")]]).2.1 (by decide)⟩

/-- C8: Stats constructor precondition: `Stats.__init__` raises `ValueError`
iff `ignore_padding` is true and `pad_token_id` is `None`; every other
argument combination constructs an object storing the given batch count,
loss, buffer references, beta, average, pad id and ignore flag unchanged,
with zeroed match counters. -/
theorem stats_init_precondition (nb : Nat) (loss : Rat) (pr lr : Nat)
    (beta : Rat) (avg : String) (pad : Option Int) (ign : Bool) :
    ((∃ e, Stats.init nb loss pr lr beta avg pad ign = .error e) ↔
      ign = true ∧ pad = none) ∧
    ∀ s, Stats.init nb loss pr lr beta avg pad ign = .ok s →
      s.num_batchs = nb ∧ s.loss = loss ∧ s.predRef = pr ∧ s.labelsRef = lr ∧
      s.f_score_beta = beta ∧ s.average = avg ∧ s.pad_token_id = pad ∧
      s.ignore_padding = ign ∧ s.num_matches = 0 ∧ s.num_totals = 0 := by
  by_cases h : ign = true ∧ pad = none
  · refine ⟨⟨fun _ => h,
      fun _ => ⟨"pad_token_id must be provided if ignore_padding is True",
        by simp [Stats.init, h]⟩⟩, fun s hs => ?_⟩
    simp [Stats.init, h] at hs
  · refine ⟨⟨fun ⟨e, he⟩ => ?_, fun hc => absurd hc h⟩, fun s hs => ?_⟩
    · simp [Stats.init, h] at he
    · simp only [Stats.init, if_neg h] at hs
      rw [← Except.ok.inj hs]
      exact ⟨rfl, rfl, rfl, rfl, rfl, rfl, rfl, rfl, rfl, rfl⟩

/-- Witness for C8: with `ignore_padding` true and no pad id construction
fails; with defaults construction succeeds and stores the arguments. -/
theorem stats_init_precondition_witness :
    (∃ e, Stats.init 0 0 0 1 (1 / 2) "weighted" none true = .error e) ∧
    (defaultStats.num_batchs = 0 ∧ defaultStats.loss = 0 ∧
     defaultStats.predRef = 0 ∧ defaultStats.labelsRef = 1 ∧
     defaultStats.f_score_beta = 1 / 2 ∧ defaultStats.average = "weighted" ∧
     defaultStats.pad_token_id = none ∧ defaultStats.ignore_padding = false ∧
     defaultStats.num_matches = 0 ∧ defaultStats.num_totals = 0) :=
  ⟨(stats_init_precondition 0 0 0 1 (1 / 2) "weighted" none true).1.mpr
     ⟨rfl, rfl⟩,
   (stats_init_precondition 0 0 0 1 (1 / 2) "weighted" none false).2
     defaultStats rfl⟩

/-- C9: Stats.compute requires a prior update: on a default-constructed
`Stats` with no `update_step` ever called, `compute` raises (the
concatenation of the empty buffer list fails, and the loss would be
divided by zero batches) instead of returning metrics; after any one
successful `update_step`, `compute` returns a metrics dictionary. -/
theorem stats_compute_requires_update :
    Stats.compute defaultStats initHeap =
      .error "need at least one array to concatenate" ∧
    ∀ (loss : Rat) (yp yt : List Int) (s' : Stats) (h' : Heap),
      Stats.update_step defaultStats initHeap loss yp yt = .ok (s', h') →
      ∃ m, Stats.compute s' h' = .ok m := by
  refine ⟨rfl, fun loss yp yt s' h' hup => ?_⟩
  by_cases hlen : yp.length = yt.length
  · simp only [Stats.update_step, hlen, ne_eq, not_true_eq_false, if_false,
      reduceIte, Except.ok.injEq, Prod.mk.injEq] at hup
    obtain ⟨hs, hh⟩ := hup
    subst hs hh
    apply compute_ok_of <;>
      simp [defaultStats, defaultPredRef, defaultLabelsRef, initHeap,
        heapAppend, hlen]
  · simp [Stats.update_step, hlen] at hup

/-- Witness for C9: one concrete `update_step` on the default-constructed
object makes `compute` succeed. -/
theorem stats_compute_requires_update_witness :
    ∃ m, Stats.compute
      ((Stats.update_step defaultStats initHeap 1 [0] [0]).toOption.getD
        (defaultStats, initHeap)).1
      ((Stats.update_step defaultStats initHeap 1 [0] [0]).toOption.getD
        (defaultStats, initHeap)).2 = .ok m :=
  stats_compute_requires_update.2 1 [0] [0] _ _ rfl

/-- C10: Shared default buffers: the default-argument `pred`/`labels`
lists are evaluated once, so every `Stats()` constructed without explicit
buffers references the same two heap cells; after one `update_step` on a
first default-constructed object, a second default-constructed object does
not start with an empty prediction buffer, and a further `update_step` on
the first object changes the value `compute` returns on the second. -/
theorem stats_shared_default_buffers :
    Stats.init 0 0 defaultPredRef defaultLabelsRef (1 / 2) "weighted" none false =
      .ok defaultStats ∧
    ∃ (s1 : Stats) (h1 : Heap) (s2 : Stats) (h2 : Heap) (s3 : Stats) (h3 : Heap),
      Stats.update_step defaultStats initHeap 1 [0] [0] = .ok (s1, h1) ∧
      s1.predRef = defaultStats.predRef ∧
      h1.getD defaultStats.predRef [] ≠ [] ∧
      Stats.update_step defaultStats h1 1 [1] [1] = .ok (s2, h2) ∧
      Stats.update_step s1 h2 1 [5] [6] = .ok (s3, h3) ∧
      (Stats.compute s2 h2).toOption.map Metrics.acc = some 1 ∧
      (Stats.compute s2 h3).toOption.map Metrics.acc = some (2 / 3) ∧
      Stats.compute s2 h2 ≠ Stats.compute s2 h3 := by
  refine ⟨rfl, _, _, _, _, _, _, rfl, rfl, ?_, rfl, rfl, ?_, ?_, ?_⟩
  · simp [heapAppend, initHeap, defaultStats, defaultPredRef, defaultLabelsRef]
  · norm_num [Stats.compute, heapAppend, initHeap, defaultStats,
      defaultPredRef, defaultLabelsRef, accuracyScore, safeDivN, isPadId,
      Except.toOption]
  · norm_num [Stats.compute, heapAppend, initHeap, defaultStats,
      defaultPredRef, defaultLabelsRef, accuracyScore, safeDivN, isPadId,
      Except.toOption]
  · intro hEq
    have hc := congrArg (fun e => e.toOption.map Metrics.acc) hEq
    norm_num [Stats.compute, heapAppend, initHeap, defaultStats,
      defaultPredRef, defaultLabelsRef, accuracyScore, safeDivN, isPadId,
      Except.toOption] at hc

end NMT
